import Mathlib

/-!
# Shallow embedding of `k8s/upgrade-job/src/upgrade/data_plane.rs`

The source is an asynchronous, sequential rolling-upgrade orchestrator for
io-engine (data-plane) pods.  Every interaction with the outside world
(Kubernetes API, storage control-plane REST API, sleeping) happens through a
small set of calls.  We embed the module as state-passing functions over an
explicit environment of oracles: each oracle is indexed by how many calls of
that kind have already been made, so that time-varying observations (a node
first `Draining`, later `Drained`; a rebuild flag that eventually clears) can
be expressed.  Every external call is also recorded in an event trace, which
lets ordering properties ("no mutation before the control-plane gate") be
stated.  Loops in the source have no bound; they are embedded with a fuel
parameter, and exhausting the fuel yields the outcome `none` ("still
running"), distinct from `some (Except.error e)` and `some (Except.ok a)`.
-/

namespace Mayastor

/-! ## Constants (`common::constants`, `utils`) -/

/-- `IO_ENGINE_LABEL` role label selecting io-engine pods. -/
def IO_ENGINE_LABEL : String := "app=io-engine"

/-- `CHART_VERSION_LABEL_KEY` key of the chart-version label. -/
def CHART_VERSION_LABEL_KEY : String := "openebs.io/version"

/-- `DRAIN_FOR_UPGRADE` the drain-reason label identifying drains issued by this upgrade. -/
def DRAIN_FOR_UPGRADE : String := "mayastor-upgrade"

/-- `AGENT_CORE_LABEL` role label selecting agent-core pods. -/
def AGENT_CORE_LABEL : String := "app=agent-core"

/-- `API_REST_LABEL` role label selecting api-rest pods. -/
def API_REST_LABEL : String := "app=api-rest"

/-- `ETCD_LABEL` role label selecting etcd pods. -/
def ETCD_LABEL : String := "app=etcd"

/-! ## Data model -/

/-- `openapi::models::CordonDrainState`: tagged cordon/drain state of a storage node. -/
inductive CordonDrainState where
  | cordonedstate (drainlabels : List String)
  | drainingstate (drainlabels : List String)
  | drainedstate (drainlabels : List String)
deriving DecidableEq, Repr

/-- The fragment of a Kubernetes `PodSpec` that the module reads. -/
structure PodSpec where
  node_name : Option String
deriving DecidableEq, Repr

/-- The fragment of a Kubernetes `Pod` that the module reads: name, optional
spec, and the pod `Ready` condition (`true` iff the readiness condition holds). -/
structure Pod where
  name : String
  spec : Option PodSpec
  ready : Bool
deriving DecidableEq, Repr

/-- The error taxonomy of `common::error` as used by `data_plane.rs`.  `source`
fields carry the underlying client error message (snafu context wrapping). -/
inductive UpgradeError where
  | ListPodsWithLabel (label : String) (ns : String) (source : String)
  | ListPodsWithLabelAndField (label : String) (field : String) (ns : String) (source : String)
  | EmptyPodSpec (name : String) (ns : String)
  | EmptyPodNodeName (name : String) (ns : String)
  | GetStorageNode (node_id : String) (source : String)
  | EmptyStorageNodeSpec (node_id : String)
  | DrainStorageNode (node_id : String) (source : String)
  | StorageNodeUncordon (node_id : String) (source : String)
  | PodDelete (name : String) (node : String) (source : String)
  | TooManyIoEnginePods (node_name : String)
deriving DecidableEq, Repr

/-- Observable events: each external call made by the module, plus every sleep
(with its duration in seconds). -/
inductive Event where
  | getNode (node_id : String)
  | putDrain (node_id : String) (label : String)
  | deleteCordon (node_id : String) (label : String)
  | deletePod (name : String)
  | listPods (labels : String) (fields : Option String)
  | isRebuilding
  | sleepSecs (secs : Nat)
deriving DecidableEq, Repr

/-- Execution state: one call counter per oracle kind, and the event trace in
chronological order. -/
structure St where
  nGetNode : Nat
  nPutDrain : Nat
  nDeleteCordon : Nat
  nDeletePod : Nat
  nListPods : Nat
  nRebuild : Nat
  trace : List Event
deriving DecidableEq, Repr

/-- The initial execution state of a run. -/
def St.init : St := ⟨0, 0, 0, 0, 0, 0, []⟩

/-- Append an event to the trace (used for sleeps, which touch no counter). -/
def St.emit (s : St) (e : Event) : St := { s with trace := s.trace ++ [e] }

/-- The environment of external oracles.  Each oracle maps its call index (how
many calls of that kind happened before) to the response the outside world
gives.  Client-level failures are opaque `String` messages, wrapped by the
module into `UpgradeError` context; the rebuild query (whose wrapping lives in
`upgrade::utils`, outside the excerpt) surfaces `UpgradeError` directly. -/
structure Env where
  getNode : String → Nat → Except String (Option (Option CordonDrainState))
  putDrain : String → String → Nat → Except String Unit
  deleteCordon : String → String → Nat → Except String Unit
  deletePod : String → Nat → Except String Unit
  listPods : String → Option String → Nat → Except String (List Pod)
  isRebuilding : Nat → Except UpgradeError Bool

/-- Outcome of a fuel-bounded computation: final state, and `none` when the
fuel ran out (the source loop would still be running), `some (Except.error e)`
on an error return, `some (Except.ok a)` on success. -/
abbrev ORes (α : Type) : Type := St × Option (Except UpgradeError α)

/-- Sequential composition: errors and fuel exhaustion short-circuit. -/
def obind {α β : Type} (r : ORes α) (f : St → α → ORes β) : ORes β :=
  match r with
  | (s, none) => (s, none)
  | (s, some (Except.error e)) => (s, some (Except.error e))
  | (s, some (Except.ok a)) => f s a

/-- Lift an infallible-control-flow call result into an outcome. -/
def toORes {α : Type} (r : St × Except UpgradeError α) : ORes α := (r.1, some r.2)

/-! ## External call primitives (counter bump + trace event + oracle response) -/

/-- `rest_client.nodes_api().get_node(node_id)` -/
def callGetNode (env : Env) (node_id : String) (s : St) :
    St × Except String (Option (Option CordonDrainState)) :=
  ({ s with nGetNode := s.nGetNode + 1, trace := s.trace ++ [Event.getNode node_id] },
   env.getNode node_id s.nGetNode)

/-- `rest_client.nodes_api().put_node_drain(node_id, label)` -/
def callPutDrain (env : Env) (node_id : String) (label : String) (s : St) :
    St × Except String Unit :=
  ({ s with nPutDrain := s.nPutDrain + 1, trace := s.trace ++ [Event.putDrain node_id label] },
   env.putDrain node_id label s.nPutDrain)

/-- `rest_client.nodes_api().delete_node_cordon(node_id, label)` -/
def callDeleteCordon (env : Env) (node_id : String) (label : String) (s : St) :
    St × Except String Unit :=
  ({ s with
      nDeleteCordon := s.nDeleteCordon + 1,
      trace := s.trace ++ [Event.deleteCordon node_id label] },
   env.deleteCordon node_id label s.nDeleteCordon)

/-- `k8s_client.pods_api().delete(name, default)` -/
def callDeletePod (env : Env) (name : String) (s : St) : St × Except String Unit :=
  ({ s with nDeletePod := s.nDeletePod + 1, trace := s.trace ++ [Event.deletePod name] },
   env.deletePod name s.nDeletePod)

/-- `k8s_client.pods_api().list(params)` with a label selector and an optional
field selector. -/
def callListPods (env : Env) (labels : String) (fields : Option String) (s : St) :
    St × Except String (List Pod) :=
  ({ s with nListPods := s.nListPods + 1, trace := s.trace ++ [Event.listPods labels fields] },
   env.listPods labels fields s.nListPods)

/-! ## Functions modelled from the spec (their source lives outside the excerpt) -/

/-- Modelled from the spec: `upgrade::utils::all_pods_are_ready` is not part of
the source excerpt.  Per the spec, a component group's "readiness = all
instances in the set report ready", and "`ControlPlaneReady` returns false if
any one of the three component groups' instance list is empty, even when the
other two are fully ready" — since `control_plane_is_running` applies this
function directly to each listing, an empty list is not ready. -/
def all_pods_are_ready (pods : List Pod) : Bool :=
  !pods.isEmpty && pods.all (fun p => p.ready)

/-- Modelled from the spec: `upgrade::utils::is_rebuilding` is not part of the
source excerpt.  Per the spec it queries the cluster-wide
"rebuild in progress" flag through the control-plane API and surfaces query
errors immediately. -/
def is_rebuilding (env : Env) (s : St) : St × Except UpgradeError Bool :=
  ({ s with nRebuild := s.nRebuild + 1, trace := s.trace ++ [Event.isRebuilding] },
   env.isRebuilding s.nRebuild)

/-! ## Selector formatting (`format!` expressions in the source) -/

/-- `format!("{IO_ENGINE_LABEL},{CHART_VERSION_LABEL_KEY}={version}")` -/
def io_engine_selector (version : String) : String :=
  IO_ENGINE_LABEL ++ "," ++ CHART_VERSION_LABEL_KEY ++ "=" ++ version

/-- `format!("{AGENT_CORE_LABEL},{CHART_VERSION_LABEL_KEY}={version}")` -/
def agent_core_selector (version : String) : String :=
  AGENT_CORE_LABEL ++ "," ++ CHART_VERSION_LABEL_KEY ++ "=" ++ version

/-- `format!("{API_REST_LABEL},{CHART_VERSION_LABEL_KEY}={version}")` -/
def api_rest_selector (version : String) : String :=
  API_REST_LABEL ++ "," ++ CHART_VERSION_LABEL_KEY ++ "=" ++ version

/-- `format!("spec.nodeName={node}")` -/
def node_name_field (node : String) : String := "spec.nodeName=" ++ node

/-! ## Guard predicates of the `match` arms on `cordondrainstate` -/

/-- The guard `Some(CordonDrainState::drainingstate(d)) if
d.drainlabels.contains(DRAIN_FOR_UPGRADE)` of `drain_storage_node`. -/
def isOurDraining (cds : Option CordonDrainState) : Bool :=
  match cds with
  | some (CordonDrainState.drainingstate ls) => ls.contains DRAIN_FOR_UPGRADE
  | _ => false

/-- The guard `Some(CordonDrainState::drainedstate(d)) if
d.drainlabels.contains(DRAIN_FOR_UPGRADE)` of `drain_storage_node` and
`uncordon_node`. -/
def isOurDrained (cds : Option CordonDrainState) : Bool :=
  match cds with
  | some (CordonDrainState.drainedstate ls) => ls.contains DRAIN_FOR_UPGRADE
  | _ => false

/-- All drain labels carried by a cordon/drain state. -/
def cordonStateLabels : Option CordonDrainState → List String
  | none => []
  | some (CordonDrainState.cordonedstate ls) => ls
  | some (CordonDrainState.drainingstate ls) => ls
  | some (CordonDrainState.drainedstate ls) => ls

/-! ## The functions of `data_plane.rs` -/

/-- `uncordon_node` (data_plane.rs lines 116-160): loop { fetch node state; if
`Drained` with our label, remove our drain label (uncordon) and sleep 1s, then
re-check; on any other state return success }. -/
def uncordon_node (env : Env) (node_id : String) : Nat → St → ORes Unit
  | 0, s => (s, none)
  | fuel+1, s =>
    match callGetNode env node_id s with
    | (s1, Except.error e) =>
      (s1, some (Except.error (UpgradeError.GetStorageNode node_id e)))
    | (s1, Except.ok none) =>
      (s1, some (Except.error (UpgradeError.EmptyStorageNodeSpec node_id)))
    | (s1, Except.ok (some cds)) =>
      if isOurDrained cds then
        match callDeleteCordon env node_id DRAIN_FOR_UPGRADE s1 with
        | (s2, Except.error e) =>
          (s2, some (Except.error (UpgradeError.StorageNodeUncordon node_id e)))
        | (s2, Except.ok _) =>
          uncordon_node env node_id fuel (s2.emit (Event.sleepSecs 1))
      else (s1, some (Except.ok ()))

/-- `delete_data_plane_pod` (lines 163-185): issue the pod delete and return. -/
def delete_data_plane_pod (env : Env) (node_name : String) (pod : Pod) (s : St) :
    St × Except UpgradeError Unit :=
  match callDeletePod env pod.name s with
  | (s1, Except.error e) =>
    (s1, Except.error (UpgradeError.PodDelete pod.name node_name e))
  | (s1, Except.ok _) => (s1, Except.ok ())

/-- The loop body of `wait_for_rebuild` (lines 209-212): poll `is_rebuilding`,
sleeping 10s after each `true`, returning on `false`, propagating errors. -/
def wait_for_rebuild_loop (env : Env) (node_name : String) : Nat → St → ORes Unit
  | 0, s => (s, none)
  | fuel+1, s =>
    match is_rebuilding env s with
    | (s1, Except.error e) => (s1, some (Except.error e))
    | (s1, Except.ok true) =>
      wait_for_rebuild_loop env node_name fuel (s1.emit (Event.sleepSecs 10))
    | (s1, Except.ok false) => (s1, some (Except.ok ()))

/-- `wait_for_rebuild` (lines 206-214): a fixed 60s grace sleep, then the poll
loop. -/
def wait_for_rebuild (env : Env) (node_name : String) (fuel : Nat) (s : St) : ORes Unit :=
  wait_for_rebuild_loop env node_name fuel (s.emit (Event.sleepSecs 60))

/-- `drain_storage_node` (lines 217-267): loop { fetch node state; `Draining`
with our label: sleep 5s and re-check; `Drained` with our label: success;
anything else: issue a drain request with our label and re-check immediately }. -/
def drain_storage_node (env : Env) (node_id : String) : Nat → St → ORes Unit
  | 0, s => (s, none)
  | fuel+1, s =>
    match callGetNode env node_id s with
    | (s1, Except.error e) =>
      (s1, some (Except.error (UpgradeError.GetStorageNode node_id e)))
    | (s1, Except.ok none) =>
      (s1, some (Except.error (UpgradeError.EmptyStorageNodeSpec node_id)))
    | (s1, Except.ok (some cds)) =>
      if isOurDraining cds then
        drain_storage_node env node_id fuel (s1.emit (Event.sleepSecs 5))
      else if isOurDrained cds then
        (s1, some (Except.ok ()))
      else
        match callPutDrain env node_id DRAIN_FOR_UPGRADE s1 with
        | (s2, Except.error e) =>
          (s2, some (Except.error (UpgradeError.DrainStorageNode node_id e)))
        | (s2, Except.ok _) => drain_storage_node env node_id fuel s2

/-- `data_plane_pod_is_running` (lines 270-301): list io-engine pods for
(node, target version); empty → not ready; more than one → fatal
`TooManyIoEnginePods`; exactly one → readiness of the listed pods. -/
def data_plane_pod_is_running (env : Env) (node : String) (ns : String)
    (upgrade_to_version : String) (s : St) : St × Except UpgradeError Bool :=
  let fld := node_name_field node
  let pod_label := io_engine_selector upgrade_to_version
  match callListPods env pod_label (some fld) s with
  | (s1, Except.error e) =>
    (s1, Except.error (UpgradeError.ListPodsWithLabelAndField pod_label fld ns e))
  | (s1, Except.ok pod_list) =>
    if pod_list.isEmpty then (s1, Except.ok false)
    else if pod_list.length ≠ 1 then
      (s1, Except.error (UpgradeError.TooManyIoEnginePods node))
    else (s1, Except.ok (all_pods_are_ready pod_list))

/-- `verify_data_plane_pod_is_running` (lines 188-203): poll
`data_plane_pod_is_running` until `true`, sleeping 5s after each `false`. -/
def verify_data_plane_pod_is_running (env : Env) (node_name ns upgrade_to_version : String) :
    Nat → St → ORes Unit
  | 0, s => (s, none)
  | fuel+1, s =>
    match data_plane_pod_is_running env node_name ns upgrade_to_version s with
    | (s1, Except.error e) => (s1, some (Except.error e))
    | (s1, Except.ok true) => (s1, some (Except.ok ()))
    | (s1, Except.ok false) =>
      verify_data_plane_pod_is_running env node_name ns upgrade_to_version fuel
        (s1.emit (Event.sleepSecs 5))

/-- `control_plane_is_running` (lines 317-357): list agent-core pods (target
version), api-rest pods (target version) and etcd pods (role label only);
running iff all three groups are ready. -/
def control_plane_is_running (env : Env) (ns upgrade_to_version : String) (s : St) :
    St × Except UpgradeError Bool :=
  match callListPods env (agent_core_selector upgrade_to_version) none s with
  | (s1, Except.error e) =>
    (s1, Except.error (UpgradeError.ListPodsWithLabel AGENT_CORE_LABEL ns e))
  | (s1, Except.ok l1) =>
    let core_is_ready := all_pods_are_ready l1
    match callListPods env (api_rest_selector upgrade_to_version) none s1 with
    | (s2, Except.error e) =>
      (s2, Except.error (UpgradeError.ListPodsWithLabel API_REST_LABEL ns e))
    | (s2, Except.ok l2) =>
      let rest_is_ready := all_pods_are_ready l2
      match callListPods env ETCD_LABEL none s2 with
      | (s3, Except.error e) =>
        (s3, Except.error (UpgradeError.ListPodsWithLabel ETCD_LABEL ns e))
      | (s3, Except.ok l3) =>
        let etcd_is_ready := all_pods_are_ready l3
        (s3, Except.ok (core_is_ready && rest_is_ready && etcd_is_ready))

/-- `verify_control_plane_is_running` (lines 303-314): poll
`control_plane_is_running` until `true`, sleeping 3s after each `false`. -/
def verify_control_plane_is_running (env : Env) (ns upgrade_to_version : String) :
    Nat → St → ORes Unit
  | 0, s => (s, none)
  | fuel+1, s =>
    match control_plane_is_running env ns upgrade_to_version s with
    | (s1, Except.error e) => (s1, some (Except.error e))
    | (s1, Except.ok true) => (s1, some (Except.ok ()))
    | (s1, Except.ok false) =>
      verify_control_plane_is_running env ns upgrade_to_version fuel
        (s1.emit (Event.sleepSecs 3))

/-- The body of the `for pod in initial_io_engine_pod_list` loop of
`upgrade_data_plane` (lines 58-111): resolve the pod's node (absent spec or
node name is fatal), then drain → rebuild-wait → pod delete → uncordon →
data-plane readiness poll → control-plane readiness poll. -/
def process_pod (env : Env) (ns upgrade_to_version : String) (fuel : Nat) (pod : Pod)
    (s : St) : ORes Unit :=
  match pod.spec with
  | none => (s, some (Except.error (UpgradeError.EmptyPodSpec pod.name ns)))
  | some sp =>
    match sp.node_name with
    | none => (s, some (Except.error (UpgradeError.EmptyPodNodeName pod.name ns)))
    | some node_name =>
      obind (drain_storage_node env node_name fuel s) (fun s1 _ =>
      obind (wait_for_rebuild env node_name fuel s1) (fun s2 _ =>
      obind (toORes (delete_data_plane_pod env node_name pod s2)) (fun s3 _ =>
      obind (uncordon_node env node_name fuel s3) (fun s4 _ =>
      obind (verify_data_plane_pod_is_running env node_name ns upgrade_to_version fuel s4)
        (fun s5 _ =>
      verify_control_plane_is_running env ns upgrade_to_version fuel s5)))))

/-- The `for` loop of `upgrade_data_plane` over the snapshot, in listing order;
any error aborts the remainder. -/
def process_pods (env : Env) (ns upgrade_to_version : String) (fuel : Nat) :
    List Pod → St → ORes Unit
  | [], s => (s, some (Except.ok ()))
  | pod :: rest, s =>
    obind (process_pod env ns upgrade_to_version fuel pod s) (fun s1 _ =>
      process_pods env ns upgrade_to_version fuel rest s1)

/-- `upgrade_data_plane` (lines 27-113): control-plane gate, one-time snapshot
listing of io-engine pods still on the source version, then the per-pod loop.
Client construction (lines 33-38) is connection configuration, excluded by the
spec as an external collaborator. -/
def upgrade_data_plane (env : Env)
    (ns _rest_endpoint upgrade_from_version upgrade_to_version : String)
    (fuel : Nat) (s : St) : ORes Unit :=
  let selector := io_engine_selector upgrade_from_version
  obind (verify_control_plane_is_running env ns upgrade_to_version fuel s) (fun s1 _ =>
    match callListPods env selector none s1 with
    | (s2, Except.error e) =>
      (s2, some (Except.error (UpgradeError.ListPodsWithLabel selector ns e)))
    | (s2, Except.ok initial_io_engine_pod_list) =>
      process_pods env ns upgrade_to_version fuel initial_io_engine_pod_list s2)

/-! ## Derived notions used by the statements -/

/-- A run of the per-pod loop that drives every listed pod, in order, exactly
once through one successful `process_pod` (the five-stage sequence followed by
the two readiness polls). -/
inductive PodsRun (env : Env) (ns tv : String) (fuel : Nat) : List Pod → St → St → Prop
  | nil (s : St) : PodsRun env ns tv fuel [] s s
  | cons {pod : Pod} {rest : List Pod} {s s1 s2 : St} :
      process_pod env ns tv fuel pod s = (s1, some (Except.ok ())) →
      PodsRun env ns tv fuel rest s1 s2 →
      PodsRun env ns tv fuel (pod :: rest) s s2

/-- Node-mutating events: drain request, drain-label removal, pod deletion. -/
def Event.isMutating : Event → Bool
  | Event.putDrain _ _ => true
  | Event.deleteCordon _ _ => true
  | Event.deletePod _ => true
  | _ => false

/-- Events the control-plane readiness gate may produce: the three
control-plane listings and the 3s poll sleep. -/
def isCpGateEvent (tv : String) (e : Event) : Prop :=
  e = Event.listPods (agent_core_selector tv) none ∨
  e = Event.listPods (api_rest_selector tv) none ∨
  e = Event.listPods ETCD_LABEL none ∨
  e = Event.sleepSecs 3

deriving instance DecidableEq for Except

/-! ## Claim theorems -/

/-- C5: `wait_for_rebuild` sleeps the fixed 60s grace period exactly once, then
polls the cluster-wide rebuild flag, sleeping 10s between polls, until it is
false; with a flag that is true on the first 2 polls and false thereafter it
polls exactly 3 times (2 true, 1 false) and returns success. -/
theorem wait_for_rebuild_grace_once_three_polls :
    ∀ (env : Env) (n : String) (s : St) (fuel : Nat),
      (∀ k, env.isRebuilding (s.nRebuild + k) = Except.ok (decide (k < 2))) →
      3 ≤ fuel →
      wait_for_rebuild env n fuel s =
        ({ s with
            nRebuild := s.nRebuild + 3,
            trace := s.trace ++ [Event.sleepSecs 60, Event.isRebuilding, Event.sleepSecs 10,
              Event.isRebuilding, Event.sleepSecs 10, Event.isRebuilding] },
         some (Except.ok ())) := by
  intro env n s fuel h hf
  obtain ⟨f, rfl⟩ : ∃ f, fuel = f + 3 := ⟨fuel - 3, by omega⟩
  have h0 : env.isRebuilding s.nRebuild = Except.ok true := by simpa using h 0
  have h1 : env.isRebuilding (s.nRebuild + 1) = Except.ok true := by simpa using h 1
  have h2 : env.isRebuilding (s.nRebuild + 2) = Except.ok false := by simpa using h 2
  simp [wait_for_rebuild, wait_for_rebuild_loop, is_rebuilding, St.emit, h0, h1, h2]

/-- C5 witness: the concrete two-true-then-false rebuild flag. -/
def envW5 : Env where
  getNode := fun _ _ => Except.error "unused"
  putDrain := fun _ _ _ => Except.error "unused"
  deleteCordon := fun _ _ _ => Except.error "unused"
  deletePod := fun _ _ => Except.error "unused"
  listPods := fun _ _ _ => Except.error "unused"
  isRebuilding := fun k => Except.ok (decide (k < 2))

/-- C5 witness: on the two-true-then-false flag, the run sleeps 60s once and
polls three times. -/
theorem wait_for_rebuild_grace_once_three_polls_witness :
    wait_for_rebuild envW5 "node-1" 3 St.init =
      (⟨0, 0, 0, 0, 0, 3,
        [Event.sleepSecs 60, Event.isRebuilding, Event.sleepSecs 10,
          Event.isRebuilding, Event.sleepSecs 10, Event.isRebuilding]⟩,
       some (Except.ok ())) := by
  have := wait_for_rebuild_grace_once_three_polls envW5 "node-1" St.init 3
    (fun k => by simp [envW5, St.init]) (by omega)
  simpa [St.init] using this

/-- C2: the data-plane readiness check for (node, target version): zero
matching pods is "not ready" (false), exactly one matching pod is ready iff
its readiness condition holds, and two or more pods is the fatal
`TooManyIoEnginePods` error, which the surrounding poll loop propagates
immediately. -/
theorem data_plane_pod_is_running_cases :
    ∀ (env : Env) (node ns tv : String) (s : St) (l : List Pod),
      env.listPods (io_engine_selector tv) (some (node_name_field node)) s.nListPods =
        Except.ok l →
      (l = [] →
        data_plane_pod_is_running env node ns tv s =
          ({ s with
              nListPods := s.nListPods + 1,
              trace := s.trace ++
                [Event.listPods (io_engine_selector tv) (some (node_name_field node))] },
           Except.ok false)) ∧
      (∀ p, l = [p] →
        data_plane_pod_is_running env node ns tv s =
          ({ s with
              nListPods := s.nListPods + 1,
              trace := s.trace ++
                [Event.listPods (io_engine_selector tv) (some (node_name_field node))] },
           Except.ok p.ready)) ∧
      (2 ≤ l.length →
        data_plane_pod_is_running env node ns tv s =
          ({ s with
              nListPods := s.nListPods + 1,
              trace := s.trace ++
                [Event.listPods (io_engine_selector tv) (some (node_name_field node))] },
           Except.error (UpgradeError.TooManyIoEnginePods node))) ∧
      (2 ≤ l.length → ∀ fuel,
        verify_data_plane_pod_is_running env node ns tv (fuel + 1) s =
          ({ s with
              nListPods := s.nListPods + 1,
              trace := s.trace ++
                [Event.listPods (io_engine_selector tv) (some (node_name_field node))] },
           some (Except.error (UpgradeError.TooManyIoEnginePods node)))) := by
  intro env node ns tv s l h
  have hne : 2 ≤ l.length → l.isEmpty = false := by
    intro h2; cases l with
    | nil => simp at h2
    | cons a t => simp
  have hlen : 2 ≤ l.length → l.length ≠ 1 := by omega
  refine ⟨?_, ?_, ?_, ?_⟩
  · rintro rfl
    simp [data_plane_pod_is_running, callListPods, h]
  · rintro p rfl
    simp [data_plane_pod_is_running, callListPods, h, all_pods_are_ready]
  · intro h2
    simp [data_plane_pod_is_running, callListPods, h, hne h2, hlen h2]
  · intro h2 fuel
    simp [verify_data_plane_pod_is_running, data_plane_pod_is_running, callListPods, h,
      hne h2, hlen h2]

/-- C2 witness environment: two io-engine pods listed for the node. -/
def envW2 : Env where
  getNode := fun _ _ => Except.error "unused"
  putDrain := fun _ _ _ => Except.error "unused"
  deleteCordon := fun _ _ _ => Except.error "unused"
  deletePod := fun _ _ => Except.error "unused"
  listPods := fun _ _ _ =>
    Except.ok [⟨"p-a", some ⟨some "n1"⟩, true⟩, ⟨"p-b", some ⟨some "n1"⟩, true⟩]
  isRebuilding := fun _ => Except.error (UpgradeError.TooManyIoEnginePods "unused")

/-- C2 witness: with two matching pods the check and its poll loop fail with
`TooManyIoEnginePods`. -/
theorem data_plane_pod_is_running_cases_witness :
    data_plane_pod_is_running envW2 "n1" "ns" "v2" St.init =
      (⟨0, 0, 0, 0, 1, 0, [Event.listPods (io_engine_selector "v2")
        (some (node_name_field "n1"))]⟩,
       Except.error (UpgradeError.TooManyIoEnginePods "n1")) ∧
    verify_data_plane_pod_is_running envW2 "n1" "ns" "v2" 1 St.init =
      (⟨0, 0, 0, 0, 1, 0, [Event.listPods (io_engine_selector "v2")
        (some (node_name_field "n1"))]⟩,
       some (Except.error (UpgradeError.TooManyIoEnginePods "n1"))) := by
  have hc := data_plane_pod_is_running_cases envW2 "n1" "ns" "v2" St.init
    [⟨"p-a", some ⟨some "n1"⟩, true⟩, ⟨"p-b", some ⟨some "n1"⟩, true⟩] rfl
  exact ⟨by simpa [St.init] using hc.2.2.1 (by decide),
    by simpa [St.init] using hc.2.2.2 (by decide) 0⟩

/-- C3: each iteration of `drain_storage_node` fetches the node state and
splits three ways: `Draining` under our label sleeps 5s and re-checks;
`Drained` under our label returns success; anything else issues a drain
request tagged with our label and re-checks immediately with no sleep. -/
theorem drain_storage_node_three_way :
    ∀ (env : Env) (n : String) (fuel : Nat) (s : St) (cds : Option CordonDrainState),
      env.getNode n s.nGetNode = Except.ok (some cds) →
      (isOurDraining cds = true →
        drain_storage_node env n (fuel + 1) s =
          drain_storage_node env n fuel
            { s with
                nGetNode := s.nGetNode + 1,
                trace := s.trace ++ [Event.getNode n, Event.sleepSecs 5] }) ∧
      (isOurDrained cds = true →
        drain_storage_node env n (fuel + 1) s =
          ({ s with nGetNode := s.nGetNode + 1, trace := s.trace ++ [Event.getNode n] },
           some (Except.ok ()))) ∧
      (isOurDraining cds = false → isOurDrained cds = false →
        ∀ e, env.putDrain n DRAIN_FOR_UPGRADE s.nPutDrain = Except.error e →
          drain_storage_node env n (fuel + 1) s =
            ({ s with
                nGetNode := s.nGetNode + 1, nPutDrain := s.nPutDrain + 1,
                trace := s.trace ++ [Event.getNode n, Event.putDrain n DRAIN_FOR_UPGRADE] },
             some (Except.error (UpgradeError.DrainStorageNode n e)))) ∧
      (isOurDraining cds = false → isOurDrained cds = false →
        env.putDrain n DRAIN_FOR_UPGRADE s.nPutDrain = Except.ok () →
          drain_storage_node env n (fuel + 1) s =
            drain_storage_node env n fuel
              { s with
                  nGetNode := s.nGetNode + 1, nPutDrain := s.nPutDrain + 1,
                  trace := s.trace ++ [Event.getNode n, Event.putDrain n DRAIN_FOR_UPGRADE] }) := by
  intro env n fuel s cds h
  refine ⟨?_, ?_, ?_, ?_⟩
  · intro hdg
    have hdd : isOurDrained cds = false := by
      cases cds with
      | none => rfl
      | some c => cases c <;> simp_all [isOurDraining, isOurDrained]
    simp [drain_storage_node, callGetNode, h, hdg, St.emit]
  · intro hdd
    have hdg : isOurDraining cds = false := by
      cases cds with
      | none => rfl
      | some c => cases c <;> simp_all [isOurDraining, isOurDrained]
    simp [drain_storage_node, callGetNode, h, hdg, hdd]
  · intro hdg hdd e hput
    simp [drain_storage_node, callGetNode, callPutDrain, h, hdg, hdd, hput]
  · intro hdg hdd hput
    simp [drain_storage_node, callGetNode, callPutDrain, h, hdg, hdd, hput]

/-- C3 witness environment: the node is observed `Drained` under our label. -/
def envW3 : Env where
  getNode := fun _ _ =>
    Except.ok (some (some (CordonDrainState.drainedstate [DRAIN_FOR_UPGRADE])))
  putDrain := fun _ _ _ => Except.ok ()
  deleteCordon := fun _ _ _ => Except.ok ()
  deletePod := fun _ _ => Except.ok ()
  listPods := fun _ _ _ => Except.ok []
  isRebuilding := fun _ => Except.ok false

/-- C3 witness: on a node already `Drained` under our label, one fetch returns
success. -/
theorem drain_storage_node_three_way_witness :
    drain_storage_node envW3 "n1" 1 St.init =
      (⟨1, 0, 0, 0, 0, 0, [Event.getNode "n1"]⟩, some (Except.ok ())) := by
  have hc := drain_storage_node_three_way envW3 "n1" 0 St.init
    (some (CordonDrainState.drainedstate [DRAIN_FOR_UPGRADE])) rfl
  simpa [St.init] using hc.2.1 (by decide)

/-- C4 counterexample environment: the node is observed `Draining` under the
orchestrator's own drain-reason label. -/
def envC4 : Env where
  getNode := fun _ _ =>
    Except.ok (some (some (CordonDrainState.drainingstate [DRAIN_FOR_UPGRADE])))
  putDrain := fun _ _ _ => Except.ok ()
  deleteCordon := fun _ _ _ => Except.ok ()
  deletePod := fun _ _ => Except.ok ()
  listPods := fun _ _ _ => Except.ok []
  isRebuilding := fun _ => Except.ok false

/-- C4 counterexample: `uncordon_node` returns success on a node whose last
observed (and only observed) cordon/drain state is `Draining` and still
carries `DRAIN_FOR_UPGRADE` — so success does not imply the label is gone. -/
theorem uncordon_node_c4_counterexample :
    uncordon_node envC4 "node-1" 1 St.init =
      (⟨1, 0, 0, 0, 0, 0, [Event.getNode "node-1"]⟩, some (Except.ok ())) ∧
    envC4.getNode "node-1" 0 =
      Except.ok (some (some (CordonDrainState.drainingstate [DRAIN_FOR_UPGRADE]))) ∧
    (cordonStateLabels
        (some (CordonDrainState.drainingstate [DRAIN_FOR_UPGRADE]))).contains
      DRAIN_FOR_UPGRADE = true := by
  refine ⟨by decide, rfl, by decide⟩

/-- C4 amended: whenever `uncordon_node` returns successfully, the node state
it last observed is not `Drained` carrying the orchestrator's
`DRAIN_FOR_UPGRADE` label (it may still be draining, cordoned, or carry the
label under a different state variant — the function no-ops silently there). -/
theorem uncordon_node_success_last_observed_not_our_drained :
    ∀ (env : Env) (n : String) (fuel : Nat) (s sf : St),
      uncordon_node env n fuel s = (sf, some (Except.ok ())) →
      ∃ cds, env.getNode n (sf.nGetNode - 1) = Except.ok (some cds) ∧
        isOurDrained cds = false := by
  intro env n fuel
  induction fuel with
  | zero =>
    intro s sf h
    simp [uncordon_node] at h
  | succ f ih =>
    intro s sf h
    rw [uncordon_node] at h
    rcases hg : env.getNode n s.nGetNode with e | v
    · simp [callGetNode, hg] at h
    · cases v with
      | none => simp [callGetNode, hg] at h
      | some cds =>
        by_cases hd : isOurDrained cds
        · rcases hdel : env.deleteCordon n DRAIN_FOR_UPGRADE s.nDeleteCordon with e | u
          · simp [callGetNode, hg, hd, callDeleteCordon, hdel] at h
          · simp only [callGetNode, hg, hd, callDeleteCordon, hdel, if_true] at h
            exact ih _ _ h
        · simp only [callGetNode, hg, hd, if_false, Bool.false_eq_true] at h
          obtain ⟨hsf, -⟩ := Prod.mk.injEq .. ▸ h
          refine ⟨cds, ?_, by simpa using hd⟩
          have : sf.nGetNode = s.nGetNode + 1 := by rw [← hsf]
          rw [this, Nat.add_sub_cancel, hg]

/-- C4 witness environment: the node has no cordon/drain state at all. -/
def envW4 : Env where
  getNode := fun _ _ => Except.ok (some none)
  putDrain := fun _ _ _ => Except.ok ()
  deleteCordon := fun _ _ _ => Except.ok ()
  deletePod := fun _ _ => Except.ok ()
  listPods := fun _ _ _ => Except.ok []
  isRebuilding := fun _ => Except.ok false

/-- C4 witness: a successful uncordon whose last observation is not
`Drained`-with-our-label. -/
theorem uncordon_node_success_last_observed_not_our_drained_witness :
    uncordon_node envW4 "node-1" 1 St.init =
      ((⟨1, 0, 0, 0, 0, 0, [Event.getNode "node-1"]⟩ : St), some (Except.ok ())) ∧
    ∃ cds, envW4.getNode "node-1"
        ((⟨1, 0, 0, 0, 0, 0, [Event.getNode "node-1"]⟩ : St).nGetNode - 1) =
      Except.ok (some cds) ∧ isOurDrained cds = false :=
  ⟨by decide,
   uncordon_node_success_last_observed_not_our_drained envW4 "node-1" 1 St.init
     ⟨1, 0, 0, 0, 0, 0, [Event.getNode "node-1"]⟩ (by decide)⟩

/-- C6: `control_plane_is_running` evaluates the three component groups
(agent-core and api-rest filtered by target version, etcd by role label only);
it returns false whenever any one listing comes back empty, even if the other
two are fully ready, and returns true only when all three groups are ready. -/
theorem control_plane_is_running_requires_all_groups :
    ∀ (env : Env) (ns tv : String) (s : St) (l1 l2 l3 : List Pod),
      env.listPods (agent_core_selector tv) none s.nListPods = Except.ok l1 →
      env.listPods (api_rest_selector tv) none (s.nListPods + 1) = Except.ok l2 →
      env.listPods ETCD_LABEL none (s.nListPods + 2) = Except.ok l3 →
      control_plane_is_running env ns tv s =
        ({ s with
            nListPods := s.nListPods + 3,
            trace := s.trace ++ [Event.listPods (agent_core_selector tv) none,
              Event.listPods (api_rest_selector tv) none, Event.listPods ETCD_LABEL none] },
         Except.ok (all_pods_are_ready l1 && all_pods_are_ready l2 && all_pods_are_ready l3)) ∧
      ((l1 = [] ∨ l2 = [] ∨ l3 = []) →
        (control_plane_is_running env ns tv s).2 = Except.ok false) ∧
      ((control_plane_is_running env ns tv s).2 = Except.ok true ↔
        all_pods_are_ready l1 = true ∧ all_pods_are_ready l2 = true ∧
          all_pods_are_ready l3 = true) := by
  intro env ns tv s l1 l2 l3 h1 h2 h3
  have hmain :
      control_plane_is_running env ns tv s =
        ({ s with
            nListPods := s.nListPods + 3,
            trace := s.trace ++ [Event.listPods (agent_core_selector tv) none,
              Event.listPods (api_rest_selector tv) none, Event.listPods ETCD_LABEL none] },
         Except.ok (all_pods_are_ready l1 && all_pods_are_ready l2 && all_pods_are_ready l3)) := by
    simp [control_plane_is_running, callListPods, h1, h2, h3]
  refine ⟨hmain, ?_, ?_⟩
  · intro hempty
    rw [hmain]
    rcases hempty with rfl | rfl | rfl <;> simp [all_pods_are_ready]
  · rw [hmain]
    simp [and_assoc]

/-- C6 witness environment: the agent-core listing is empty while api-rest and
etcd each have one ready pod. -/
def envW6 : Env where
  getNode := fun _ _ => Except.error "unused"
  putDrain := fun _ _ _ => Except.error "unused"
  deleteCordon := fun _ _ _ => Except.error "unused"
  deletePod := fun _ _ => Except.error "unused"
  listPods := fun _ _ k =>
    if k = 0 then Except.ok [] else Except.ok [⟨"cp", some ⟨some "n1"⟩, true⟩]
  isRebuilding := fun _ => Except.error (UpgradeError.TooManyIoEnginePods "unused")

/-- C6 witness: one empty group forces false despite the other two being
ready. -/
theorem control_plane_is_running_requires_all_groups_witness :
    (control_plane_is_running envW6 "ns" "v2" St.init).2 = Except.ok false :=
  (control_plane_is_running_requires_all_groups envW6 "ns" "v2" St.init
    [] [⟨"cp", some ⟨some "n1"⟩, true⟩] [⟨"cp", some ⟨some "n1"⟩, true⟩]
    rfl rfl rfl).2.1 (Or.inl rfl)

/-- C8: in every poll loop (drain wait, uncordon, rebuild wait, data-plane
readiness wait, control-plane readiness wait), a fetch/list error is
propagated to the caller at once — a single call is made, no sleep is emitted
and no retry happens; only successfully observed state drives another poll. -/
theorem poll_loops_propagate_errors_immediately :
    ∀ (env : Env) (n ns tv : String) (fuel : Nat) (s : St),
      (∀ e, env.getNode n s.nGetNode = Except.error e →
        drain_storage_node env n (fuel + 1) s =
          ({ s with nGetNode := s.nGetNode + 1, trace := s.trace ++ [Event.getNode n] },
           some (Except.error (UpgradeError.GetStorageNode n e)))) ∧
      (∀ e, env.getNode n s.nGetNode = Except.error e →
        uncordon_node env n (fuel + 1) s =
          ({ s with nGetNode := s.nGetNode + 1, trace := s.trace ++ [Event.getNode n] },
           some (Except.error (UpgradeError.GetStorageNode n e)))) ∧
      (∀ e, env.isRebuilding s.nRebuild = Except.error e →
        wait_for_rebuild env n (fuel + 1) s =
          ({ s with
              nRebuild := s.nRebuild + 1,
              trace := s.trace ++ [Event.sleepSecs 60, Event.isRebuilding] },
           some (Except.error e))) ∧
      (∀ e, env.listPods (io_engine_selector tv) (some (node_name_field n)) s.nListPods =
          Except.error e →
        verify_data_plane_pod_is_running env n ns tv (fuel + 1) s =
          ({ s with
              nListPods := s.nListPods + 1,
              trace := s.trace ++
                [Event.listPods (io_engine_selector tv) (some (node_name_field n))] },
           some (Except.error (UpgradeError.ListPodsWithLabelAndField (io_engine_selector tv)
             (node_name_field n) ns e)))) ∧
      (∀ e, env.listPods (agent_core_selector tv) none s.nListPods = Except.error e →
        verify_control_plane_is_running env ns tv (fuel + 1) s =
          ({ s with
              nListPods := s.nListPods + 1,
              trace := s.trace ++ [Event.listPods (agent_core_selector tv) none] },
           some (Except.error (UpgradeError.ListPodsWithLabel AGENT_CORE_LABEL ns e)))) := by
  intro env n ns tv fuel s
  refine ⟨?_, ?_, ?_, ?_, ?_⟩
  · intro e h
    simp [drain_storage_node, callGetNode, h]
  · intro e h
    simp [uncordon_node, callGetNode, h]
  · intro e h
    simp [wait_for_rebuild, wait_for_rebuild_loop, is_rebuilding, St.emit, h]
  · intro e h
    simp [verify_data_plane_pod_is_running, data_plane_pod_is_running, callListPods, h]
  · intro e h
    simp [verify_control_plane_is_running, control_plane_is_running, callListPods, h]

/-- C8 witness environment: every external query fails. -/
def envW8 : Env where
  getNode := fun _ _ => Except.error "boom"
  putDrain := fun _ _ _ => Except.error "boom"
  deleteCordon := fun _ _ _ => Except.error "boom"
  deletePod := fun _ _ => Except.error "boom"
  listPods := fun _ _ _ => Except.error "boom"
  isRebuilding := fun _ => Except.error (UpgradeError.GetStorageNode "n1" "boom")

/-- C8 witness: each loop surfaces the failing first call immediately, with no
retry and no sleep after the failure. -/
theorem poll_loops_propagate_errors_immediately_witness :
    drain_storage_node envW8 "n1" 1 St.init =
      (⟨1, 0, 0, 0, 0, 0, [Event.getNode "n1"]⟩,
       some (Except.error (UpgradeError.GetStorageNode "n1" "boom"))) ∧
    uncordon_node envW8 "n1" 1 St.init =
      (⟨1, 0, 0, 0, 0, 0, [Event.getNode "n1"]⟩,
       some (Except.error (UpgradeError.GetStorageNode "n1" "boom"))) ∧
    wait_for_rebuild envW8 "n1" 1 St.init =
      (⟨0, 0, 0, 0, 0, 1, [Event.sleepSecs 60, Event.isRebuilding]⟩,
       some (Except.error (UpgradeError.GetStorageNode "n1" "boom"))) ∧
    verify_data_plane_pod_is_running envW8 "n1" "ns" "v2" 1 St.init =
      (⟨0, 0, 0, 0, 1, 0,
        [Event.listPods (io_engine_selector "v2") (some (node_name_field "n1"))]⟩,
       some (Except.error (UpgradeError.ListPodsWithLabelAndField (io_engine_selector "v2")
         (node_name_field "n1") "ns" "boom"))) ∧
    verify_control_plane_is_running envW8 "ns" "v2" 1 St.init =
      (⟨0, 0, 0, 0, 1, 0, [Event.listPods (agent_core_selector "v2") none]⟩,
       some (Except.error (UpgradeError.ListPodsWithLabel AGENT_CORE_LABEL "ns" "boom"))) := by
  have hc := poll_loops_propagate_errors_immediately envW8 "n1" "ns" "v2" 0 St.init
  exact ⟨by simpa [St.init] using hc.1 "boom" rfl,
    by simpa [St.init] using hc.2.1 "boom" rfl,
    by simpa [St.init] using hc.2.2.1 (UpgradeError.GetStorageNode "n1" "boom") rfl,
    by simpa [St.init] using hc.2.2.2.1 "boom" rfl,
    by simpa [St.init] using hc.2.2.2.2 "boom" rfl⟩

/-- C9: no poll loop carries a retry limit or deadline — when the polled
condition never becomes true (rebuild flag always true, node always observed
`Draining` under our label, a readiness check false forever), the operation
never returns within any amount of fuel. -/
theorem poll_loops_no_deadline_never_return :
    ∀ (env : Env) (n ns tv : String),
      ((∀ k, env.isRebuilding k = Except.ok true) →
        ∀ (fuel : Nat) (s : St), (wait_for_rebuild env n fuel s).2 = none) ∧
      ((∀ k, env.getNode n k =
          Except.ok (some (some (CordonDrainState.drainingstate [DRAIN_FOR_UPGRADE])))) →
        ∀ (fuel : Nat) (s : St), (drain_storage_node env n fuel s).2 = none) ∧
      ((∀ fld k, env.listPods (io_engine_selector tv) fld k = Except.ok []) →
        ∀ (fuel : Nat) (s : St),
          (verify_data_plane_pod_is_running env n ns tv fuel s).2 = none) ∧
      ((∀ lbl k, env.listPods lbl none k = Except.ok []) →
        ∀ (fuel : Nat) (s : St),
          (verify_control_plane_is_running env ns tv fuel s).2 = none) := by
  intro env n ns tv
  refine ⟨?_, ?_, ?_, ?_⟩
  · intro h fuel
    suffices hloop : ∀ (s : St), (wait_for_rebuild_loop env n fuel s).2 = none by
      intro s; exact hloop (s.emit (Event.sleepSecs 60))
    induction fuel with
    | zero => intro s; rfl
    | succ f ih =>
      intro s
      simp only [wait_for_rebuild_loop, is_rebuilding, h s.nRebuild]
      exact ih _
  · intro h fuel
    induction fuel with
    | zero => intro s; rfl
    | succ f ih =>
      intro s
      have hdg : isOurDraining
          (some (CordonDrainState.drainingstate [DRAIN_FOR_UPGRADE])) = true := by decide
      simp only [drain_storage_node, callGetNode, h s.nGetNode, hdg, if_true]
      exact ih _
  · intro h fuel
    induction fuel with
    | zero => intro s; rfl
    | succ f ih =>
      intro s
      simp only [verify_data_plane_pod_is_running, data_plane_pod_is_running, callListPods,
        h (some (node_name_field n)) s.nListPods, List.isEmpty_nil, if_true]
      exact ih _
  · intro h fuel
    induction fuel with
    | zero => intro s; rfl
    | succ f ih =>
      intro s
      have hready : all_pods_are_ready [] = false := by decide
      simp only [verify_control_plane_is_running, control_plane_is_running, callListPods,
        h (agent_core_selector tv) s.nListPods, h (api_rest_selector tv) (s.nListPods + 1),
        h ETCD_LABEL (s.nListPods + 1 + 1), hready, Bool.false_and]
      exact ih _

/-- C9 witness environment: a rebuild that never finishes, a drain that never
completes, and readiness listings that stay empty forever. -/
def envW9 : Env where
  getNode := fun _ _ =>
    Except.ok (some (some (CordonDrainState.drainingstate [DRAIN_FOR_UPGRADE])))
  putDrain := fun _ _ _ => Except.ok ()
  deleteCordon := fun _ _ _ => Except.ok ()
  deletePod := fun _ _ => Except.ok ()
  listPods := fun _ _ _ => Except.ok []
  isRebuilding := fun _ => Except.ok true

/-- C9 witness: all four operations are still running after concrete fuel. -/
theorem poll_loops_no_deadline_never_return_witness :
    (wait_for_rebuild envW9 "n1" 5 St.init).2 = none ∧
    (drain_storage_node envW9 "n1" 5 St.init).2 = none ∧
    (verify_data_plane_pod_is_running envW9 "n1" "ns" "v2" 5 St.init).2 = none ∧
    (verify_control_plane_is_running envW9 "ns" "v2" 5 St.init).2 = none := by
  have hc := poll_loops_no_deadline_never_return envW9 "n1" "ns" "v2"
  exact ⟨hc.1 (fun k => rfl) 5 St.init, hc.2.1 (fun k => rfl) 5 St.init,
    hc.2.2.1 (fun fld k => rfl) 5 St.init, hc.2.2.2 (fun lbl k => rfl) 5 St.init⟩

/-- A successful per-pod loop is exactly a `PodsRun`: every listed pod, in
order, goes through one successful five-stage `process_pod`. -/
theorem process_pods_ok_iff (env : Env) (ns tv : String) (fuel : Nat) :
    ∀ (pods : List Pod) (s sf : St),
      process_pods env ns tv fuel pods s = (sf, some (Except.ok ())) ↔
        PodsRun env ns tv fuel pods s sf := by
  intro pods
  induction pods with
  | nil =>
    intro s sf
    constructor
    · intro h
      obtain ⟨rfl, -⟩ := Prod.mk.injEq .. ▸ h
      exact PodsRun.nil s
    · intro h
      cases h
      rfl
  | cons pod rest ih =>
    intro s sf
    rcases hp : process_pod env ns tv fuel pod s with ⟨t, o⟩
    constructor
    · intro h
      rw [process_pods, hp] at h
      match o, h with
      | some (Except.ok ()), h =>
        exact PodsRun.cons hp ((ih t sf).mp h)
    · intro h
      cases h with
      | cons hstep hrest =>
        rw [process_pods, hp]
        rw [hp] at hstep
        obtain ⟨rfl, ho⟩ := Prod.mk.injEq .. ▸ hstep
        cases ho
        exact (ih t sf).mpr hrest

/-- An erroring per-pod loop splits into a successful run over a leading part
of the snapshot followed by the single failing pod; pods after it contribute
nothing. -/
theorem process_pods_error_split (env : Env) (ns tv : String) (fuel : Nat) :
    ∀ (pods : List Pod) (s sf : St) (e : UpgradeError),
      process_pods env ns tv fuel pods s = (sf, some (Except.error e)) →
      ∃ pre bad post s1, pods = pre ++ bad :: post ∧
        PodsRun env ns tv fuel pre s s1 ∧
        process_pod env ns tv fuel bad s1 = (sf, some (Except.error e)) := by
  intro pods
  induction pods with
  | nil =>
    intro s sf e h
    simp [process_pods] at h
  | cons pod rest ih =>
    intro s sf e h
    rcases hp : process_pod env ns tv fuel pod s with ⟨t, o⟩
    rw [process_pods, hp] at h
    match o, h with
    | none, h => exact absurd (Prod.mk.injEq .. ▸ h).2 (by simp)
    | some (Except.error e1), h =>
      obtain ⟨rfl, ho⟩ := Prod.mk.injEq .. ▸ h
      cases ho
      exact ⟨[], pod, rest, s, rfl, PodsRun.nil s, hp⟩
    | some (Except.ok ()), h =>
      obtain ⟨pre, bad, post, s1, hsplit, hrun, hbad⟩ := ih t sf e h
      exact ⟨pod :: pre, bad, post, s1, by rw [hsplit]; rfl, PodsRun.cons hp hrun, hbad⟩

/-- C1: a successful run of `upgrade_data_plane` drives every pod of the
one-time initial snapshot, in listing order, exactly once through the
five-stage sequence (drain, rebuild-wait, pod delete, uncordon, then the
data-plane and control-plane readiness polls); and a stage error aborts the
run at that pod with the same error, with no stage performed for any later
pod. -/
theorem upgrade_data_plane_five_stage_order :
    ∀ (env : Env) (ns ep fv tv : String) (fuel : Nat) (sf : St),
      (upgrade_data_plane env ns ep fv tv fuel St.init = (sf, some (Except.ok ())) →
        ∃ sg s0 pods,
          verify_control_plane_is_running env ns tv fuel St.init = (sg, some (Except.ok ())) ∧
          callListPods env (io_engine_selector fv) none sg = (s0, Except.ok pods) ∧
          PodsRun env ns tv fuel pods s0 sf) ∧
      (∀ (pods : List Pod) (s : St) (e : UpgradeError),
        process_pods env ns tv fuel pods s = (sf, some (Except.error e)) →
        ∃ pre bad post s1, pods = pre ++ bad :: post ∧
          PodsRun env ns tv fuel pre s s1 ∧
          process_pod env ns tv fuel bad s1 = (sf, some (Except.error e))) := by
  intro env ns ep fv tv fuel sf
  constructor
  · intro h
    obtain ⟨⟨sg, og⟩, hg⟩ :
        ∃ r, verify_control_plane_is_running env ns tv fuel St.init = r := ⟨_, rfl⟩
    rw [upgrade_data_plane] at h
    rw [hg] at h
    cases og with
    | none => simp [obind] at h
    | some r =>
      cases r with
      | error e => simp [obind] at h
      | ok u =>
        cases u
        rcases hl : env.listPods (io_engine_selector fv) none sg.nListPods with e | pods
        · simp only [obind, callListPods, hl] at h
          exact absurd (Prod.mk.injEq .. ▸ h).2 (by simp)
        · simp only [obind, callListPods, hl] at h
          refine ⟨sg,
            { sg with
                nListPods := sg.nListPods + 1,
                trace := sg.trace ++ [Event.listPods (io_engine_selector fv) none] },
            pods, hg, by simp [callListPods, hl], ?_⟩
          exact (process_pods_ok_iff env ns tv fuel pods _ sf).mp h
  · intro pods s e
    exact process_pods_error_split env ns tv fuel pods s sf e

/-- C1 witness environment: one io-engine pod on the source version; the node
is already `Drained` under our label on the first fetch and has no
cordon/drain state after the uncordon; no rebuild is running; every listing
after the snapshot returns one ready pod. -/
def envW1 : Env where
  getNode := fun _ k =>
    if k = 0 then Except.ok (some (some (CordonDrainState.drainedstate [DRAIN_FOR_UPGRADE])))
    else Except.ok (some none)
  putDrain := fun _ _ _ => Except.ok ()
  deleteCordon := fun _ _ _ => Except.ok ()
  deletePod := fun _ _ => Except.ok ()
  listPods := fun _ _ _ => Except.ok [⟨"p1", some ⟨some "n1"⟩, true⟩]
  isRebuilding := fun _ => Except.ok false

/-- C1 witness: a concrete successful run decomposes into gate, snapshot and
an in-order `PodsRun`; and a concrete failing per-pod loop splits at the
failing pod. -/
theorem upgrade_data_plane_five_stage_order_witness :
    (upgrade_data_plane envW1 "ns" "ep" "v1" "v2" 1 St.init =
      (⟨2, 0, 0, 1, 8, 1,
        [Event.listPods (agent_core_selector "v2") none,
         Event.listPods (api_rest_selector "v2") none,
         Event.listPods ETCD_LABEL none,
         Event.listPods (io_engine_selector "v1") none,
         Event.getNode "n1",
         Event.sleepSecs 60, Event.isRebuilding,
         Event.deletePod "p1",
         Event.getNode "n1",
         Event.listPods (io_engine_selector "v2") (some (node_name_field "n1")),
         Event.listPods (agent_core_selector "v2") none,
         Event.listPods (api_rest_selector "v2") none,
         Event.listPods ETCD_LABEL none]⟩,
       some (Except.ok ())) ∧
      ∃ sg s0 pods,
        verify_control_plane_is_running envW1 "ns" "v2" 1 St.init =
          (sg, some (Except.ok ())) ∧
        callListPods envW1 (io_engine_selector "v1") none sg = (s0, Except.ok pods) ∧
        PodsRun envW1 "ns" "v2" 1 pods s0
          ⟨2, 0, 0, 1, 8, 1,
            [Event.listPods (agent_core_selector "v2") none,
             Event.listPods (api_rest_selector "v2") none,
             Event.listPods ETCD_LABEL none,
             Event.listPods (io_engine_selector "v1") none,
             Event.getNode "n1",
             Event.sleepSecs 60, Event.isRebuilding,
             Event.deletePod "p1",
             Event.getNode "n1",
             Event.listPods (io_engine_selector "v2") (some (node_name_field "n1")),
             Event.listPods (agent_core_selector "v2") none,
             Event.listPods (api_rest_selector "v2") none,
             Event.listPods ETCD_LABEL none]⟩) ∧
    (process_pods envW8 "ns" "v2" 1 [⟨"p1", some ⟨some "n1"⟩, true⟩] St.init =
      (⟨1, 0, 0, 0, 0, 0, [Event.getNode "n1"]⟩,
       some (Except.error (UpgradeError.GetStorageNode "n1" "boom"))) ∧
      ∃ pre bad post s1,
        ([⟨"p1", some ⟨some "n1"⟩, true⟩] : List Pod) = pre ++ bad :: post ∧
        PodsRun envW8 "ns" "v2" 1 pre St.init s1 ∧
        process_pod envW8 "ns" "v2" 1 bad s1 =
          (⟨1, 0, 0, 0, 0, 0, [Event.getNode "n1"]⟩,
           some (Except.error (UpgradeError.GetStorageNode "n1" "boom")))) := by
  constructor
  · have hrun : upgrade_data_plane envW1 "ns" "ep" "v1" "v2" 1 St.init =
        (⟨2, 0, 0, 1, 8, 1,
          [Event.listPods (agent_core_selector "v2") none,
           Event.listPods (api_rest_selector "v2") none,
           Event.listPods ETCD_LABEL none,
           Event.listPods (io_engine_selector "v1") none,
           Event.getNode "n1",
           Event.sleepSecs 60, Event.isRebuilding,
           Event.deletePod "p1",
           Event.getNode "n1",
           Event.listPods (io_engine_selector "v2") (some (node_name_field "n1")),
           Event.listPods (agent_core_selector "v2") none,
           Event.listPods (api_rest_selector "v2") none,
           Event.listPods ETCD_LABEL none]⟩,
         some (Except.ok ())) := by decide
    exact ⟨hrun,
      (upgrade_data_plane_five_stage_order envW1 "ns" "ep" "v1" "v2" 1 _).1 hrun⟩
  · have herr : process_pods envW8 "ns" "v2" 1 [⟨"p1", some ⟨some "n1"⟩, true⟩] St.init =
        (⟨1, 0, 0, 0, 0, 0, [Event.getNode "n1"]⟩,
         some (Except.error (UpgradeError.GetStorageNode "n1" "boom"))) := by decide
    exact ⟨herr,
      (upgrade_data_plane_five_stage_order envW8 "ns" "ep" "v1" "v2" 1 _).2 _ _ _ herr⟩

/-- A successful run over a leading part of the snapshot lets the loop resume
at the remainder from the intermediate state. -/
theorem process_pods_append_of_run (env : Env) (ns tv : String) (fuel : Nat) :
    ∀ (pre : List Pod) (s s1 : St), PodsRun env ns tv fuel pre s s1 →
      ∀ rest, process_pods env ns tv fuel (pre ++ rest) s =
        process_pods env ns tv fuel rest s1 := by
  intro pre s s1 hrun
  induction hrun with
  | nil s0 => intro rest; rfl
  | cons hstep hrest ih =>
    intro rest
    rw [List.cons_append, process_pods, hstep]
    exact ih rest

/-- C10: a snapshot pod with an absent pod spec (or an absent assigned node
name) makes `upgrade_data_plane` return `EmptyPodSpec` (resp.
`EmptyPodNodeName`) the moment the loop reaches it: the final state is exactly
the state after the preceding pods, so no drain request, pod deletion or any
other action is issued on the malformed pod's behalf. -/
theorem upgrade_data_plane_malformed_pod_aborts :
    ∀ (env : Env) (ns ep fv tv : String) (fuel : Nat) (sg s0 s1 : St)
      (pods pre post : List Pod) (bad : Pod),
      verify_control_plane_is_running env ns tv fuel St.init = (sg, some (Except.ok ())) →
      callListPods env (io_engine_selector fv) none sg = (s0, Except.ok pods) →
      pods = pre ++ bad :: post →
      PodsRun env ns tv fuel pre s0 s1 →
      (bad.spec = none →
        upgrade_data_plane env ns ep fv tv fuel St.init =
          (s1, some (Except.error (UpgradeError.EmptyPodSpec bad.name ns)))) ∧
      (∀ sp, bad.spec = some sp → sp.node_name = none →
        upgrade_data_plane env ns ep fv tv fuel St.init =
          (s1, some (Except.error (UpgradeError.EmptyPodNodeName bad.name ns)))) := by
  intro env ns ep fv tv fuel sg s0 s1 pods pre post bad hg hl hsplit hrun
  have hstart : upgrade_data_plane env ns ep fv tv fuel St.init =
      process_pods env ns tv fuel (bad :: post) s1 := by
    rw [upgrade_data_plane, hg]
    show (match callListPods env (io_engine_selector fv) none sg with
      | (s2, Except.error e) =>
        ((s2, some (Except.error (UpgradeError.ListPodsWithLabel (io_engine_selector fv) ns e)))
          : ORes Unit)
      | (s2, Except.ok l) => process_pods env ns tv fuel l s2) = _
    rw [hl, hsplit]
    exact process_pods_append_of_run env ns tv fuel pre s0 s1 hrun (bad :: post)
  constructor
  · intro hspec
    rw [hstart, process_pods, process_pod, hspec]
    rfl
  · intro sp hspec hnode
    rw [hstart, process_pods, process_pod, hspec]
    show obind (match sp.node_name with
      | none => ((s1, some (Except.error (UpgradeError.EmptyPodNodeName bad.name ns))) : ORes Unit)
      | some node_name => _) _ = _
    rw [hnode]
    rfl

/-- C10 witness environment: the control plane is ready, and the snapshot
returns a single pod with no pod spec. -/
def envW10 : Env where
  getNode := fun _ _ => Except.error "never-reached"
  putDrain := fun _ _ _ => Except.error "never-reached"
  deleteCordon := fun _ _ _ => Except.error "never-reached"
  deletePod := fun _ _ => Except.error "never-reached"
  listPods := fun _ _ k =>
    if k = 3 then Except.ok [⟨"p-bad", none, false⟩]
    else Except.ok [⟨"cp", some ⟨some "nX"⟩, true⟩]
  isRebuilding := fun _ => Except.error (UpgradeError.TooManyIoEnginePods "never-reached")

/-- C10 witness: the malformed snapshot pod aborts the run with
`EmptyPodSpec` and no mutating event in the trace. -/
theorem upgrade_data_plane_malformed_pod_aborts_witness :
    upgrade_data_plane envW10 "ns" "ep" "v1" "v2" 1 St.init =
      (⟨0, 0, 0, 0, 4, 0,
        [Event.listPods (agent_core_selector "v2") none,
         Event.listPods (api_rest_selector "v2") none,
         Event.listPods ETCD_LABEL none,
         Event.listPods (io_engine_selector "v1") none]⟩,
       some (Except.error (UpgradeError.EmptyPodSpec "p-bad" "ns"))) :=
  (upgrade_data_plane_malformed_pod_aborts envW10 "ns" "ep" "v1" "v2" 1
    ⟨0, 0, 0, 0, 3, 0,
      [Event.listPods (agent_core_selector "v2") none,
       Event.listPods (api_rest_selector "v2") none,
       Event.listPods ETCD_LABEL none]⟩
    ⟨0, 0, 0, 0, 4, 0,
      [Event.listPods (agent_core_selector "v2") none,
       Event.listPods (api_rest_selector "v2") none,
       Event.listPods ETCD_LABEL none,
       Event.listPods (io_engine_selector "v1") none]⟩
    ⟨0, 0, 0, 0, 4, 0,
      [Event.listPods (agent_core_selector "v2") none,
       Event.listPods (api_rest_selector "v2") none,
       Event.listPods ETCD_LABEL none,
       Event.listPods (io_engine_selector "v1") none]⟩
    [⟨"p-bad", none, false⟩] [] [] ⟨"p-bad", none, false⟩
    (by decide) (by decide) rfl
    (PodsRun.nil _)).1 rfl

/-- Two appends with constant heads that differ at a common character position
are different strings, whatever the appended tails. -/
theorem append_ne_at (p q : String) (i : Nat) (c d : Char)
    (hp : p.data.get? i = some c) (hq : q.data.get? i = some d) (hcd : c ≠ d) :
    ∀ x y : String, p ++ x ≠ q ++ y := by
  intro x y h
  have hd := congrArg String.data h
  rw [String.data_append, String.data_append] at hd
  obtain ⟨hip, -⟩ := List.get?_eq_some.mp hp
  obtain ⟨hiq, -⟩ := List.get?_eq_some.mp hq
  have h1 : (p.data ++ x.data).get? i = some c := by rw [List.get?_append hip]; exact hp
  have h2 : (q.data ++ y.data).get? i = some d := by rw [List.get?_append hiq]; exact hq
  rw [hd, h2] at h1
  exact hcd (Option.some.inj h1).symm

/-- The agent-core selector never coincides with an io-engine selector. -/
theorem agent_core_selector_ne_io (a b : String) :
    agent_core_selector a ≠ io_engine_selector b := by
  unfold agent_core_selector io_engine_selector
  exact append_ne_at _ _ 4 'a' 'i' (by decide) (by decide) (by decide) a b

/-- The api-rest selector never coincides with an io-engine selector. -/
theorem api_rest_selector_ne_io (a b : String) :
    api_rest_selector a ≠ io_engine_selector b := by
  unfold api_rest_selector io_engine_selector
  exact append_ne_at _ _ 4 'a' 'i' (by decide) (by decide) (by decide) a b

/-- The etcd selector never coincides with an io-engine selector. -/
theorem etcd_label_ne_io (b : String) : ETCD_LABEL ≠ io_engine_selector b := by
  have h := append_ne_at ETCD_LABEL
    (IO_ENGINE_LABEL ++ "," ++ CHART_VERSION_LABEL_KEY ++ "=") 4 'e' 'i'
    (by decide) (by decide) (by decide) "" b
  intro hc
  apply h
  rw [show ETCD_LABEL ++ "" = ETCD_LABEL from by decide, hc]
  rfl

/-- A control-plane gate event is neither node-mutating nor the snapshot
listing of io-engine pods on the source version. -/
theorem cpGateEvent_not_mutating_not_snapshot (tv fv : String) (e : Event)
    (h : isCpGateEvent tv e) :
    Event.isMutating e = false ∧ e ≠ Event.listPods (io_engine_selector fv) none := by
  rcases h with rfl | rfl | rfl | rfl
  · refine ⟨rfl, fun hc => ?_⟩
    injection hc with h1 h2
    exact agent_core_selector_ne_io tv fv h1
  · refine ⟨rfl, fun hc => ?_⟩
    injection hc with h1 h2
    exact api_rest_selector_ne_io tv fv h1
  · refine ⟨rfl, fun hc => ?_⟩
    injection hc with h1 h2
    exact etcd_label_ne_io fv h1
  · exact ⟨rfl, fun hc => by injection hc⟩

/-- The control-plane readiness check only appends gate events to the trace. -/
theorem control_plane_is_running_gate_trace (env : Env) (ns tv : String) (s : St) :
    ∃ t, (control_plane_is_running env ns tv s).1.trace = s.trace ++ t ∧
      ∀ e ∈ t, isCpGateEvent tv e := by
  have ha : isCpGateEvent tv (Event.listPods (agent_core_selector tv) none) := Or.inl rfl
  have hb : isCpGateEvent tv (Event.listPods (api_rest_selector tv) none) :=
    Or.inr (Or.inl rfl)
  have hc : isCpGateEvent tv (Event.listPods ETCD_LABEL none) := Or.inr (Or.inr (Or.inl rfl))
  rcases h1 : env.listPods (agent_core_selector tv) none s.nListPods with e1 | l1
  · refine ⟨[Event.listPods (agent_core_selector tv) none],
      by simp [control_plane_is_running, callListPods, h1], ?_⟩
    intro e he
    rw [List.mem_singleton] at he
    subst he; exact ha
  · rcases h2 : env.listPods (api_rest_selector tv) none (s.nListPods + 1) with e2 | l2
    · refine ⟨[Event.listPods (agent_core_selector tv) none,
        Event.listPods (api_rest_selector tv) none],
        by simp [control_plane_is_running, callListPods, h1, h2], ?_⟩
      intro e he
      rcases List.mem_cons.mp he with rfl | he
      · exact ha
      · rw [List.mem_singleton] at he; subst he; exact hb
    · refine ⟨[Event.listPods (agent_core_selector tv) none,
        Event.listPods (api_rest_selector tv) none, Event.listPods ETCD_LABEL none], ?_, ?_⟩
      · rcases h3 : env.listPods ETCD_LABEL none (s.nListPods + 1 + 1) with e3 | l3 <;>
          simp [control_plane_is_running, callListPods, h1, h2, h3]
      · intro e he
        rcases List.mem_cons.mp he with rfl | he
        · exact ha
        rcases List.mem_cons.mp he with rfl | he
        · exact hb
        · rw [List.mem_singleton] at he; subst he; exact hc

/-- The control-plane readiness poll loop only appends gate events (listings
and 3s sleeps) to the trace. -/
theorem verify_control_plane_gate_trace (env : Env) (ns tv : String) :
    ∀ (fuel : Nat) (s : St),
      ∃ t, (verify_control_plane_is_running env ns tv fuel s).1.trace = s.trace ++ t ∧
        ∀ e ∈ t, isCpGateEvent tv e := by
  intro fuel
  induction fuel with
  | zero =>
    intro s
    exact ⟨[], by simp [verify_control_plane_is_running], by intro e he; simp at he⟩
  | succ f ih =>
    intro s
    obtain ⟨t1, ht1, hm1⟩ := control_plane_is_running_gate_trace env ns tv s
    obtain ⟨⟨s1, r⟩, hcp⟩ : ∃ r, control_plane_is_running env ns tv s = r := ⟨_, rfl⟩
    rw [hcp] at ht1
    cases r with
    | error e =>
      exact ⟨t1, by simp only [verify_control_plane_is_running, hcp]; exact ht1, hm1⟩
    | ok b =>
      cases b with
      | true =>
        exact ⟨t1, by simp only [verify_control_plane_is_running, hcp]; exact ht1, hm1⟩
      | false =>
        obtain ⟨t2, ht2, hm2⟩ := ih (s1.emit (Event.sleepSecs 3))
        have ht1a : s1.trace = s.trace ++ t1 := ht1
        refine ⟨t1 ++ ([Event.sleepSecs 3] ++ t2), ?_, ?_⟩
        · simp only [verify_control_plane_is_running, hcp]
          rw [ht2]
          simp [St.emit, ht1a, List.append_assoc]
        · intro e he
          rcases List.mem_append.mp he with h | h
          · exact hm1 e h
          rcases List.mem_append.mp h with h | h
          · rw [List.mem_singleton] at h; subst h; exact Or.inr (Or.inr (Or.inr rfl))
          · exact hm2 e h

/-- Sequential composition only ever extends the trace. -/
theorem obind_trace {α β : Type} (a : ORes α) (f : St → α → ORes β) (s : St)
    (ha : ∃ t, a.1.trace = s.trace ++ t)
    (hf : ∀ s1 x, a = (s1, some (Except.ok x)) → ∃ t, (f s1 x).1.trace = s1.trace ++ t) :
    ∃ t, (obind a f).1.trace = s.trace ++ t := by
  rcases a with ⟨s1, o⟩
  match o with
  | none => exact ha
  | some (Except.error e) => exact ha
  | some (Except.ok x) =>
    obtain ⟨t1, h1⟩ := ha
    obtain ⟨t2, h2⟩ := hf s1 x rfl
    refine ⟨t1 ++ t2, ?_⟩
    show (f s1 x).1.trace = _
    rw [h2]
    show s1.trace ++ t2 = _
    rw [show s1.trace = s.trace ++ t1 from h1, List.append_assoc]

/-- `drain_storage_node` only extends the trace. -/
theorem drain_storage_node_trace (env : Env) (n : String) :
    ∀ (fuel : Nat) (s : St),
      ∃ t, (drain_storage_node env n fuel s).1.trace = s.trace ++ t := by
  intro fuel
  induction fuel with
  | zero => exact fun s => ⟨[], by simp [drain_storage_node]⟩
  | succ f ih =>
    intro s
    rcases hg : env.getNode n s.nGetNode with e | v
    · exact ⟨[Event.getNode n], by simp [drain_storage_node, callGetNode, hg]⟩
    cases v with
    | none => exact ⟨[Event.getNode n], by simp [drain_storage_node, callGetNode, hg]⟩
    | some cds =>
      by_cases hdg : isOurDraining cds = true
      · obtain ⟨t, ht⟩ := ih
          (({ s with
              nGetNode := s.nGetNode + 1,
              trace := s.trace ++ [Event.getNode n] } : St).emit (Event.sleepSecs 5))
        refine ⟨[Event.getNode n, Event.sleepSecs 5] ++ t, ?_⟩
        simp only [drain_storage_node, callGetNode, hg, hdg, if_true]
        rw [ht]
        simp [St.emit, List.append_assoc]
      · by_cases hdd : isOurDrained cds = true
        · exact ⟨[Event.getNode n],
            by simp [drain_storage_node, callGetNode, hg, hdg, hdd]⟩
        · rcases hput : env.putDrain n DRAIN_FOR_UPGRADE s.nPutDrain with e | u
          · exact ⟨[Event.getNode n, Event.putDrain n DRAIN_FOR_UPGRADE],
              by simp [drain_storage_node, callGetNode, callPutDrain, hg, hdg, hdd, hput,
                List.append_assoc]⟩
          · obtain ⟨t, ht⟩ := ih
              { s with
                nGetNode := s.nGetNode + 1,
                nPutDrain := s.nPutDrain + 1,
                trace := (s.trace ++ [Event.getNode n]) ++ [Event.putDrain n DRAIN_FOR_UPGRADE] }
            refine ⟨[Event.getNode n, Event.putDrain n DRAIN_FOR_UPGRADE] ++ t, ?_⟩
            simp only [drain_storage_node, callGetNode, callPutDrain, hg, hdg, hdd, hput,
              if_false, Bool.false_eq_true]
            rw [ht]
            simp [List.append_assoc]

/-- `uncordon_node` only extends the trace. -/
theorem uncordon_node_trace (env : Env) (n : String) :
    ∀ (fuel : Nat) (s : St),
      ∃ t, (uncordon_node env n fuel s).1.trace = s.trace ++ t := by
  intro fuel
  induction fuel with
  | zero => exact fun s => ⟨[], by simp [uncordon_node]⟩
  | succ f ih =>
    intro s
    rcases hg : env.getNode n s.nGetNode with e | v
    · exact ⟨[Event.getNode n], by simp [uncordon_node, callGetNode, hg]⟩
    cases v with
    | none => exact ⟨[Event.getNode n], by simp [uncordon_node, callGetNode, hg]⟩
    | some cds =>
      by_cases hdd : isOurDrained cds = true
      · rcases hdel : env.deleteCordon n DRAIN_FOR_UPGRADE s.nDeleteCordon with e | u
        · exact ⟨[Event.getNode n, Event.deleteCordon n DRAIN_FOR_UPGRADE],
            by simp [uncordon_node, callGetNode, callDeleteCordon, hg, hdd, hdel,
              List.append_assoc]⟩
        · obtain ⟨t, ht⟩ := ih
            (({ s with
                nGetNode := s.nGetNode + 1,
                nDeleteCordon := s.nDeleteCordon + 1,
                trace := (s.trace ++ [Event.getNode n]) ++
                  [Event.deleteCordon n DRAIN_FOR_UPGRADE] } : St).emit (Event.sleepSecs 1))
          refine ⟨[Event.getNode n, Event.deleteCordon n DRAIN_FOR_UPGRADE,
            Event.sleepSecs 1] ++ t, ?_⟩
          simp only [uncordon_node, callGetNode, callDeleteCordon, hg, hdd, hdel, if_true]
          rw [ht]
          simp [St.emit, List.append_assoc]
      · exact ⟨[Event.getNode n], by simp [uncordon_node, callGetNode, hg, hdd]⟩

/-- The rebuild poll loop only extends the trace. -/
theorem wait_for_rebuild_loop_trace (env : Env) (n : String) :
    ∀ (fuel : Nat) (s : St),
      ∃ t, (wait_for_rebuild_loop env n fuel s).1.trace = s.trace ++ t := by
  intro fuel
  induction fuel with
  | zero => exact fun s => ⟨[], by simp [wait_for_rebuild_loop]⟩
  | succ f ih =>
    intro s
    rcases hr : env.isRebuilding s.nRebuild with e | b
    · exact ⟨[Event.isRebuilding],
        by simp [wait_for_rebuild_loop, is_rebuilding, hr]⟩
    cases b with
    | false => exact ⟨[Event.isRebuilding],
        by simp [wait_for_rebuild_loop, is_rebuilding, hr]⟩
    | true =>
      obtain ⟨t, ht⟩ := ih
        (({ s with
            nRebuild := s.nRebuild + 1,
            trace := s.trace ++ [Event.isRebuilding] } : St).emit (Event.sleepSecs 10))
      refine ⟨[Event.isRebuilding, Event.sleepSecs 10] ++ t, ?_⟩
      simp only [wait_for_rebuild_loop, is_rebuilding, hr]
      rw [ht]
      simp [St.emit, List.append_assoc]

/-- `wait_for_rebuild` only extends the trace. -/
theorem wait_for_rebuild_trace (env : Env) (n : String) (fuel : Nat) (s : St) :
    ∃ t, (wait_for_rebuild env n fuel s).1.trace = s.trace ++ t := by
  obtain ⟨t, ht⟩ := wait_for_rebuild_loop_trace env n fuel (s.emit (Event.sleepSecs 60))
  refine ⟨[Event.sleepSecs 60] ++ t, ?_⟩
  rw [wait_for_rebuild, ht]
  simp [St.emit, List.append_assoc]

/-- Pod deletion only extends the trace. -/
theorem delete_data_plane_pod_trace (env : Env) (n : String) (pod : Pod) (s : St) :
    ∃ t, (toORes (delete_data_plane_pod env n pod s)).1.trace = s.trace ++ t := by
  rcases hd : env.deletePod pod.name s.nDeletePod with e | u <;>
    exact ⟨[Event.deletePod pod.name],
      by simp [toORes, delete_data_plane_pod, callDeletePod, hd]⟩

/-- The data-plane readiness poll only extends the trace. -/
theorem verify_data_plane_pod_is_running_trace (env : Env) (n ns tv : String) :
    ∀ (fuel : Nat) (s : St),
      ∃ t, (verify_data_plane_pod_is_running env n ns tv fuel s).1.trace = s.trace ++ t := by
  intro fuel
  induction fuel with
  | zero => exact fun s => ⟨[], by simp [verify_data_plane_pod_is_running]⟩
  | succ f ih =>
    intro s
    have hev : ∀ (r : St × Except UpgradeError Bool),
        data_plane_pod_is_running env n ns tv s = r →
        r.1 = { s with
          nListPods := s.nListPods + 1,
          trace := s.trace ++ [Event.listPods (io_engine_selector tv)
            (some (node_name_field n))] } := by
      intro r hr
      rcases hl : env.listPods (io_engine_selector tv) (some (node_name_field n))
          s.nListPods with e | l
      · rw [← hr]; simp [data_plane_pod_is_running, callListPods, hl]
      · rw [← hr]
        simp only [data_plane_pod_is_running, callListPods, hl]
        split
        · rfl
        split
        · rfl
        · rfl
    obtain ⟨⟨s1, r⟩, hdp⟩ : ∃ r, data_plane_pod_is_running env n ns tv s = r := ⟨_, rfl⟩
    have hs1 := hev (s1, r) hdp
    cases r with
    | error e =>
      refine ⟨[Event.listPods (io_engine_selector tv) (some (node_name_field n))], ?_⟩
      simp only [verify_data_plane_pod_is_running, hdp]
      exact congrArg St.trace hs1
    | ok b =>
      cases b with
      | true =>
        refine ⟨[Event.listPods (io_engine_selector tv) (some (node_name_field n))], ?_⟩
        simp only [verify_data_plane_pod_is_running, hdp]
        exact congrArg St.trace hs1
      | false =>
        obtain ⟨t, ht⟩ := ih (s1.emit (Event.sleepSecs 5))
        refine ⟨[Event.listPods (io_engine_selector tv) (some (node_name_field n)),
          Event.sleepSecs 5] ++ t, ?_⟩
        simp only [verify_data_plane_pod_is_running, hdp]
        rw [ht]
        rw [show s1 = { s with
          nListPods := s.nListPods + 1,
          trace := s.trace ++ [Event.listPods (io_engine_selector tv)
            (some (node_name_field n))] } from hs1]
        simp [St.emit, List.append_assoc]

/-- The control-plane readiness poll only extends the trace. -/
theorem verify_control_plane_is_running_trace (env : Env) (ns tv : String)
    (fuel : Nat) (s : St) :
    ∃ t, (verify_control_plane_is_running env ns tv fuel s).1.trace = s.trace ++ t := by
  obtain ⟨t, ht, -⟩ := verify_control_plane_gate_trace env ns tv fuel s
  exact ⟨t, ht⟩

/-- One iteration of the per-pod loop only extends the trace. -/
theorem process_pod_trace (env : Env) (ns tv : String) (fuel : Nat) (pod : Pod) (s : St) :
    ∃ t, (process_pod env ns tv fuel pod s).1.trace = s.trace ++ t := by
  rcases hspec : pod.spec with _ | sp
  · exact ⟨[], by simp [process_pod, hspec]⟩
  rcases hnn : sp.node_name with _ | node
  · exact ⟨[], by simp [process_pod, hspec, hnn]⟩
  simp only [process_pod, hspec, hnn]
  apply obind_trace _ _ s (drain_storage_node_trace env node fuel s)
  intro s1 x1 h1
  apply obind_trace _ _ s1 (wait_for_rebuild_trace env node fuel s1)
  intro s2 x2 h2
  apply obind_trace _ _ s2 (delete_data_plane_pod_trace env node pod s2)
  intro s3 x3 h3
  apply obind_trace _ _ s3 (uncordon_node_trace env node fuel s3)
  intro s4 x4 h4
  apply obind_trace _ _ s4 (verify_data_plane_pod_is_running_trace env node ns tv fuel s4)
  intro s5 x5 h5
  exact verify_control_plane_is_running_trace env ns tv fuel s5

/-- The per-pod loop only extends the trace. -/
theorem process_pods_trace (env : Env) (ns tv : String) (fuel : Nat) :
    ∀ (pods : List Pod) (s : St),
      ∃ t, (process_pods env ns tv fuel pods s).1.trace = s.trace ++ t := by
  intro pods
  induction pods with
  | nil => exact fun s => ⟨[], by simp [process_pods]⟩
  | cons pod rest ih =>
    intro s
    simp only [process_pods]
    apply obind_trace _ _ s (process_pod_trace env ns tv fuel pod s)
    intro s1 x1 h1
    exact ih s1

/-- C7: every run of `upgrade_data_plane` opens with the control-plane
readiness gate: the gate's whole trace — which is a prefix of the run's final
trace — contains no node-mutating operation and no snapshot listing of
io-engine pods, and unless the gate observed the check true the run performs
nothing else at all; while the check is false the gate re-polls after a 3s
sleep. -/
theorem upgrade_data_plane_gated_by_control_plane :
    ∀ (env : Env) (ns ep fv tv : String) (fuel : Nat) (sf : St)
      (out : Option (Except UpgradeError Unit)),
      (upgrade_data_plane env ns ep fv tv fuel St.init = (sf, out) →
        ∃ sg outg,
          verify_control_plane_is_running env ns tv fuel St.init = (sg, outg) ∧
          (∀ e ∈ sg.trace, Event.isMutating e = false ∧
            e ≠ Event.listPods (io_engine_selector fv) none) ∧
          (∃ rest, sf.trace = sg.trace ++ rest) ∧
          (outg = some (Except.ok ()) ∨ (sf, out) = (sg, outg))) ∧
      (∀ (f : Nat) (s s1 : St),
        control_plane_is_running env ns tv s = (s1, Except.ok false) →
        verify_control_plane_is_running env ns tv (f + 1) s =
          verify_control_plane_is_running env ns tv f (s1.emit (Event.sleepSecs 3))) := by
  intro env ns ep fv tv fuel sf out
  constructor
  · intro h
    obtain ⟨⟨sg, outg⟩, hg⟩ :
        ∃ r, verify_control_plane_is_running env ns tv fuel St.init = r := ⟨_, rfl⟩
    obtain ⟨tg, htg, hmg⟩ := verify_control_plane_gate_trace env ns tv fuel St.init
    rw [hg] at htg
    have htg1 : sg.trace = tg := htg
    have hmut : ∀ e ∈ sg.trace, Event.isMutating e = false ∧
        e ≠ Event.listPods (io_engine_selector fv) none := by
      intro e he
      rw [htg1] at he
      exact cpGateEvent_not_mutating_not_snapshot tv fv e (hmg e he)
    rw [upgrade_data_plane] at h
    rw [hg] at h
    cases outg with
    | none =>
      refine ⟨sg, none, hg, hmut, ⟨[], ?_⟩, Or.inr ?_⟩
      · obtain ⟨rfl, -⟩ := Prod.mk.injEq .. ▸ h
        simp
      · obtain ⟨rfl, hout⟩ := Prod.mk.injEq .. ▸ h
        rw [hout]
    | some r =>
      cases r with
      | error e =>
        refine ⟨sg, some (Except.error e), hg, hmut, ⟨[], ?_⟩, Or.inr ?_⟩
        · obtain ⟨rfl, -⟩ := Prod.mk.injEq .. ▸ h
          simp
        · obtain ⟨rfl, hout⟩ := Prod.mk.injEq .. ▸ h
          rw [hout]
      | ok u =>
        cases u
        refine ⟨sg, some (Except.ok ()), hg, hmut, ?_, Or.inl rfl⟩
        rcases hl : env.listPods (io_engine_selector fv) none sg.nListPods with e | pods
        · simp only [obind, callListPods, hl] at h
          obtain ⟨hsf, -⟩ := Prod.mk.injEq .. ▸ h
          refine ⟨[Event.listPods (io_engine_selector fv) none], ?_⟩
          rw [← hsf]
        · simp only [obind, callListPods, hl] at h
          obtain ⟨t2, ht2⟩ := process_pods_trace env ns tv fuel pods
            { sg with
              nListPods := sg.nListPods + 1,
              trace := sg.trace ++ [Event.listPods (io_engine_selector fv) none] }
          rw [h] at ht2
          refine ⟨[Event.listPods (io_engine_selector fv) none] ++ t2, ?_⟩
          rw [show (sf, out).1 = sf from rfl] at ht2
          rw [ht2]
          simp [List.append_assoc]
  · intro f s s1 h
    simp only [verify_control_plane_is_running, h]

/-- C7 witness environment (successful run): identical io-engine scenario to
the C1 witness, under its own name so the claims stay independent. -/
def envW7 : Env where
  getNode := fun _ k =>
    if k = 0 then Except.ok (some (some (CordonDrainState.drainedstate [DRAIN_FOR_UPGRADE])))
    else Except.ok (some none)
  putDrain := fun _ _ _ => Except.ok ()
  deleteCordon := fun _ _ _ => Except.ok ()
  deletePod := fun _ _ => Except.ok ()
  listPods := fun _ _ _ => Except.ok [⟨"p1", some ⟨some "n1"⟩, true⟩]
  isRebuilding := fun _ => Except.ok false

/-- C7 witness environment (blocked gate): all listings stay empty, so the
control-plane check observes false. -/
def envW7b : Env where
  getNode := fun _ _ => Except.ok (some none)
  putDrain := fun _ _ _ => Except.ok ()
  deleteCordon := fun _ _ _ => Except.ok ()
  deletePod := fun _ _ => Except.ok ()
  listPods := fun _ _ _ => Except.ok []
  isRebuilding := fun _ => Except.ok false

/-- C7 witness: the gate decomposition holds on a concrete successful run, and
on a concrete false check the gate re-polls after a 3s sleep. -/
theorem upgrade_data_plane_gated_by_control_plane_witness :
    (∃ sg outg,
      verify_control_plane_is_running envW7 "ns" "v2" 1 St.init = (sg, outg) ∧
      (∀ e ∈ sg.trace, Event.isMutating e = false ∧
        e ≠ Event.listPods (io_engine_selector "v1") none) ∧
      (∃ rest,
        (⟨2, 0, 0, 1, 8, 1,
          [Event.listPods (agent_core_selector "v2") none,
           Event.listPods (api_rest_selector "v2") none,
           Event.listPods ETCD_LABEL none,
           Event.listPods (io_engine_selector "v1") none,
           Event.getNode "n1",
           Event.sleepSecs 60, Event.isRebuilding,
           Event.deletePod "p1",
           Event.getNode "n1",
           Event.listPods (io_engine_selector "v2") (some (node_name_field "n1")),
           Event.listPods (agent_core_selector "v2") none,
           Event.listPods (api_rest_selector "v2") none,
           Event.listPods ETCD_LABEL none]⟩ : St).trace = sg.trace ++ rest) ∧
      (outg = some (Except.ok ()) ∨
        ((⟨2, 0, 0, 1, 8, 1,
          [Event.listPods (agent_core_selector "v2") none,
           Event.listPods (api_rest_selector "v2") none,
           Event.listPods ETCD_LABEL none,
           Event.listPods (io_engine_selector "v1") none,
           Event.getNode "n1",
           Event.sleepSecs 60, Event.isRebuilding,
           Event.deletePod "p1",
           Event.getNode "n1",
           Event.listPods (io_engine_selector "v2") (some (node_name_field "n1")),
           Event.listPods (agent_core_selector "v2") none,
           Event.listPods (api_rest_selector "v2") none,
           Event.listPods ETCD_LABEL none]⟩ : St),
          some (Except.ok ())) = (sg, outg))) ∧
    verify_control_plane_is_running envW7b "ns" "v2" 1 St.init =
      verify_control_plane_is_running envW7b "ns" "v2" 0
        ((⟨0, 0, 0, 0, 3, 0,
          [Event.listPods (agent_core_selector "v2") none,
           Event.listPods (api_rest_selector "v2") none,
           Event.listPods ETCD_LABEL none]⟩ : St).emit (Event.sleepSecs 3)) :=
  ⟨(upgrade_data_plane_gated_by_control_plane envW7 "ns" "ep" "v1" "v2" 1 _ _).1
      (by decide),
   (upgrade_data_plane_gated_by_control_plane envW7b "ns" "ep" "v1" "v2" 1 St.init
      none).2 0 St.init _ (by decide)⟩

end Mayastor
